import Mathlib

/-!
# Verification of the smart-bulb UDP client core

Shallow embedding of the repository's command correlator (`SmartBulb` in
`smartbulb.ts`: `sendCommand`, `handleResponse`, the timeout handler and
`close`), the device-proxy operations (`setBrightness`, `setColor`,
`setColorHex`, `getStatus`, `ping`, `getLastStatus`) and the discovery
broadcaster (`discovery.ts`: `setupDiscoverySocket`'s message handler and
`discoverBulbs`).

JavaScript `Map` objects are modelled as association lists with
set-semantics insertion (`mapSet` removes any previous binding for the
key, mirroring `Map.set` overwriting), `Map.get`/`has` as `mapLookup`,
and `Map.delete` as `mapRemove`.  Each waiting caller (the
`resolve`/`reject` pair captured in a `PendingRequest`) is identified by
an abstract token of type `Nat`; settling a caller is recorded as an
explicit `Settle` event so that "resolved exactly once" is observable.
Nondeterministic inputs of the real program (the value drawn from
`Math.random`, the arrival or loss of datagrams, send failures) are
oracle parameters of the corresponding functions.
-/

namespace SmartBulbModel

/-! ## Association-list model of a JavaScript `Map` keyed by strings -/

/-- `Map.get` / `Map.has`: first binding for the key, if any. -/
def mapLookup {β : Type} : List (String × β) → String → Option β
  | [], _ => none
  | (k, v) :: rest, key => if k = key then some v else mapLookup rest key

/-- `Map.delete`: remove the binding for the key. -/
def mapRemove {β : Type} : List (String × β) → String → List (String × β)
  | [], _ => []
  | (k, v) :: rest, key =>
    if k = key then mapRemove rest key else (k, v) :: mapRemove rest key

/-- `Map.set`: bind the key, overwriting any existing binding. -/
def mapSet {β : Type} (m : List (String × β)) (key : String) (v : β) :
    List (String × β) :=
  (key, v) :: mapRemove m key

/-! ## Data model (`smartbulb.ts` interfaces) -/

/-- The `{r, g, b}` record of `BulbStatus.color`. -/
structure Color where
  r : Int
  g : Int
  b : Int
deriving DecidableEq, Repr

/-- `BulbStatus` from `smartbulb.ts`. -/
structure BulbStatus where
  power : Bool
  brightness : Int
  color : Color
  temperature : Option Int
  connected : Bool
deriving DecidableEq, Repr

/-- `Partial<BulbStatus>`: the status fields a response's `data` object may
carry; an absent field is `none` (the key is missing from the JSON object). -/
structure StatusData where
  power : Option Bool := none
  brightness : Option Int := none
  color : Option Color := none
  temperature : Option Int := none
  connected : Option Bool := none
deriving DecidableEq, Repr

/-- `BulbResponse` from `smartbulb.ts`; `data` is `some d` exactly when the
datagram carried a status-data object. -/
structure BulbResponse where
  success : Bool
  data : Option StatusData := none
  error : Option String := none
  id : Option String := none
deriving DecidableEq, Repr

/-- The `params` payloads actually built by the proxy's typed operations. -/
inductive Params where
  | power (p : Bool)
  | brightness (b : Int)
  | color (c : Color)
deriving DecidableEq, Repr

/-- `BulbCommand` before the correlator attaches an `id`. -/
structure BulbCommand where
  command : String
  params : Option Params := none
deriving DecidableEq, Repr

/-- The serialized outgoing datagram: a `BulbCommand` with the generated `id`
spliced in (`{...command, id}` in `sendCommand`). -/
structure SentCommand where
  command : String
  params : Option Params := none
  id : String
deriving DecidableEq, Repr

/-- How a waiting caller is settled: its `resolve` called with the response,
or its `reject` called with an error message. -/
inductive Settle where
  | resolve (resp : BulbResponse)
  | reject (msg : String)
deriving DecidableEq, Repr

/-- The `pendingCommands` map: command id to the waiting caller's token. -/
abbrev PendingTable := List (String × Nat)

/-! ## Command correlator (`smartbulb.ts` lines 63–128, 215–224) -/

/-- `handleResponse` (lines 79–96).  Returns the new in-flight table, the
settlement performed (if any), and whether the datagram carried a status-data
object (in which case the source forwards it to `updateStatus`). -/
def handleResponse (resp : BulbResponse) (t : PendingTable) :
    PendingTable × Option (Nat × Settle) × Bool :=
  let step : PendingTable × Option (Nat × Settle) :=
    match resp.id with
    | some respId =>
      match mapLookup t respId with
      | some tok =>
        (mapRemove t respId,
         if resp.success then some (tok, Settle.resolve resp)
         else some (tok, Settle.reject (resp.error.getD "Unknown error")))
      | none => (t, none)
    | none => (t, none)
  (step.1, step.2, resp.data.isSome)

/-- The socket `message` handler (`setupSocket`, lines 63–77): a datagram that
fails `JSON.parse` (`none`) is dropped by the `catch`; otherwise the parsed
response goes to `handleResponse`. -/
def processDatagram (t : PendingTable) (raw : Option BulbResponse) :
    PendingTable × Option (Nat × Settle) × Bool :=
  match raw with
  | none => (t, none, false)
  | some resp => handleResponse resp t

/-- `generateCommandId` (lines 103–105):
`Math.random().toString(36).substring(2, 15)`.  The random draw is modelled
by its base-36 digit expansion after the leading `0.`; `substring(2, 15)`
keeps at most 13 of those characters. -/
def generateCommandId (randDigits : List Char) : String :=
  ⟨randDigits.take 13⟩

/-- The registration half of `sendCommand` (lines 107–128): generate an id,
register the waiting caller in `pendingCommands` (`Map.set`), and emit the
datagram carrying the command with the id attached. -/
def sendCommandReg (cmd : BulbCommand) (randDigits : List Char) (tok : Nat)
    (t : PendingTable) : PendingTable × SentCommand :=
  let cmdId := generateCommandId randDigits
  (mapSet t cmdId tok, { command := cmd.command, params := cmd.params, id := cmdId })

/-- The timeout handler installed by `sendCommand` (lines 112–115): when the
deadline elapses with the timer still armed, the entry is deleted and the
caller rejected with `'Command timeout'`. -/
def timeoutFire (cmdId : String) (tok : Nat) (t : PendingTable) :
    PendingTable × (Nat × Settle) :=
  (mapRemove t cmdId, (tok, Settle.reject "Command timeout"))

/-- `close` (lines 215–224): reject every pending caller with
`'Connection closed'`, then clear the table. -/
def closeBulb (t : PendingTable) : List (Nat × Settle) × PendingTable :=
  (t.map (fun e => (e.2, Settle.reject "Connection closed")), [])

/-- One externally triggered transition of the correlator's in-flight table:
a call to `send`, an inbound datagram, a command timer firing, or `close`. -/
inductive CorrEvent where
  | send (cmd : BulbCommand) (randDigits : List Char) (tok : Nat)
  | datagram (raw : Option BulbResponse)
  | timerFire (cmdId : String) (tok : Nat)
  | close
deriving DecidableEq, Repr

/-- The in-flight table after one event: the table component of the
corresponding source handler. -/
def corrStep (t : PendingTable) (e : CorrEvent) : PendingTable :=
  match e with
  | CorrEvent.send cmd randDigits tok => (sendCommandReg cmd randDigits tok t).1
  | CorrEvent.datagram raw => (processDatagram t raw).1
  | CorrEvent.timerFire cmdId tok => (timeoutFire cmdId tok t).1
  | CorrEvent.close => (closeBulb t).2

/-- The in-flight table of a correlator that has processed `events` since
construction (the constructor starts with an empty `Map`). -/
def runCorr (events : List CorrEvent) : PendingTable :=
  events.foldl corrStep []

/-- The identifiers generated by the `send` events of a trace. -/
def issuedIds : List CorrEvent → List String
  | [] => []
  | CorrEvent.send _ randDigits _ :: rest => generateCommandId randDigits :: issuedIds rest
  | _ :: rest => issuedIds rest

/-! ## Device proxy (`smartbulb.ts` lines 45–61, 98–101, 144–213) -/

/-- The `lastStatus` installed by the constructor (lines 53–58). -/
def initialStatus : BulbStatus :=
  { power := false
    brightness := 0
    color := { r := 255, g := 255, b := 255 }
    temperature := none
    connected := false }

/-- `getLastStatus` (lines 207–209): a shallow copy of the cache, which in
value semantics is the cache itself. -/
def getLastStatus (st : BulbStatus) : BulbStatus := st

/-- `updateStatus` (lines 98–101): `{...this.lastStatus, ...data, connected: true}`.
A field present in `data` overwrites the cached one, an absent field keeps it,
and `connected` is forced to `true` by the trailing literal. -/
def updateStatus (st : BulbStatus) (d : StatusData) : BulbStatus :=
  { power := d.power.getD st.power
    brightness := d.brightness.getD st.brightness
    color := d.color.getD st.color
    temperature := match d.temperature with
      | some x => some x
      | none => st.temperature
    connected := true }

/-- Observable effects of one proxy operation: the validation error thrown
before any I/O (if any), the in-flight table afterwards, and the datagrams
written to the socket. -/
structure RunOut where
  error : Option String
  table : PendingTable
  sent : List SentCommand
deriving DecidableEq, Repr

/-- `setBrightness` (lines 144–153): range check, then one `set_brightness`
command through `sendCommand`. -/
def setBrightnessRun (brightness : Int) (randDigits : List Char) (tok : Nat)
    (t : PendingTable) : RunOut :=
  if brightness < 0 ∨ brightness > 100 then
    { error := some "Brightness must be between 0 and 100", table := t, sent := [] }
  else
    let out := sendCommandReg
      { command := "set_brightness", params := some (Params.brightness brightness) }
      randDigits tok t
    { error := none, table := out.1, sent := [out.2] }

/-- `setColor` (lines 155–164): range check on each channel, then one
`set_color` command through `sendCommand`. -/
def setColorRun (r g b : Int) (randDigits : List Char) (tok : Nat)
    (t : PendingTable) : RunOut :=
  if r < 0 ∨ r > 255 ∨ g < 0 ∨ g > 255 ∨ b < 0 ∨ b > 255 then
    { error := some "RGB values must be between 0 and 255", table := t, sent := [] }
  else
    let out := sendCommandReg
      { command := "set_color", params := some (Params.color { r := r, g := g, b := b }) }
      randDigits tok t
    { error := none, table := out.1, sent := [out.2] }

/-- The character class `[a-f\d]` of the source regex under the `i` flag:
a decimal digit or a hex letter of either case. -/
def isHexChar (c : Char) : Bool :=
  (decide ('0' ≤ c) && decide (c ≤ '9')) ||
  (decide ('a' ≤ c) && decide (c ≤ 'f')) ||
  (decide ('A' ≤ c) && decide (c ≤ 'F'))

/-- The `#?` prefix of the source regex: drop one leading `#` if present. -/
def stripHash (cs : List Char) : List Char :=
  match cs with
  | '#' :: rest => rest
  | other => other

/-- `regex.exec` for `/^#?([a-f\d]{2})([a-f\d]{2})([a-f\d]{2})$/i`
(line 167): after the optional `#`, exactly six hex characters, captured
in three groups of two.  (`#` is not in `[a-f\d]`, so committing to the
`#`-stripped reading loses no match.) -/
def hexExec (s : String) : Option (Char × Char × Char × Char × Char × Char) :=
  match stripHash s.data with
  | [c1, c2, c3, c4, c5, c6] =>
    if isHexChar c1 && isHexChar c2 && isHexChar c3 &&
       isHexChar c4 && isHexChar c5 && isHexChar c6
    then some (c1, c2, c3, c4, c5, c6) else none
  | _ => none

/-- `parseInt` value of one hex character. -/
def hexVal (c : Char) : Int :=
  if '0' ≤ c ∧ c ≤ '9' then (c.toNat : Int) - (('0').toNat : Int)
  else if 'a' ≤ c ∧ c ≤ 'f' then (c.toNat : Int) - (('a').toNat : Int) + 10
  else if 'A' ≤ c ∧ c ≤ 'F' then (c.toNat : Int) - (('A').toNat : Int) + 10
  else 0

/-- `parseInt(group, 16)` for a two-character capture group. -/
def pairVal (hi lo : Char) : Int := 16 * hexVal hi + hexVal lo

/-- `setColorHex` (lines 166–177): run the regex; on failure throw
`'Invalid hex color format'` before any I/O, on success decode the three
groups base-16 and delegate to `setColor`. -/
def setColorHexRun (hex : String) (randDigits : List Char) (tok : Nat)
    (t : PendingTable) : RunOut :=
  match hexExec hex with
  | none => { error := some "Invalid hex color format", table := t, sent := [] }
  | some (c1, c2, c3, c4, c5, c6) =>
    setColorRun (pairVal c1 c2) (pairVal c3 c4) (pairVal c5 c6) randDigits tok t

/-- The spec's pattern `^#?[0-9A-Fa-f]{6}$`, written from its words: an
optional leading `#` followed by exactly six case-insensitive hex digits.
Declared separately from `hexExec` to compare the source's regex against
the spec's characterisation. -/
def specHexPattern (s : String) : Bool :=
  let body := stripHash s.data
  body.length == 6 && body.all isHexChar

/-- The error thrown out of an awaited `sendCommand` round trip: a timeout,
a send-time transport failure, a remote `success:false` rejection, or the
proxy being closed.  `getStatus`/`ping` treat all of them alike. -/
inductive SBError where
  | err (msg : String)
deriving DecidableEq, Repr

/-- `getStatus` (lines 179–194), as a function of the round trip's outcome
(an oracle: `.ok resp` when `sendCommand` resolved with `resp`, `.error e`
when it rejected).  Returns the cache afterwards and the status returned to
the caller. -/
def getStatus (st : BulbStatus) (outcome : Except SBError BulbResponse) :
    BulbStatus × BulbStatus :=
  match outcome with
  | Except.ok resp =>
    let st2 := match resp.data with
      | some d => updateStatus st d
      | none => st
    (st2, st2)
  | Except.error _ => (st, { st with connected := false })

/-- `ping` (lines 196–205), as a function of the round trip's outcome. -/
def ping (outcome : Except SBError BulbResponse) : Bool :=
  match outcome with
  | Except.ok _ => true
  | Except.error _ => false

/-! ## Discovery broadcaster (`discovery.ts`) -/

/-- The fields a `discovery_response`'s `data` object may carry.  The source
spreads the whole object (`{ip: rinfo.address, port: rinfo.port, ...response.data}`),
so `ip` and `port` keys inside `data` override the sender's; they are
modelled alongside the four documented fields. -/
structure DiscData where
  ip : Option String := none
  port : Option Int := none
  name : Option String := none
  model : Option String := none
  firmwareVersion : Option String := none
  macAddress : Option String := none
deriving DecidableEq, Repr

/-- `DiscoveredBulb` from `discovery.ts`. -/
structure DiscoveredBulb where
  ip : String
  port : Int
  name : Option String := none
  model : Option String := none
  firmwareVersion : Option String := none
  macAddress : Option String := none
deriving DecidableEq, Repr

/-- A parsed discovery datagram: its `type` tag and optional `data` object. -/
structure DiscMsg where
  type : String
  data : Option DiscData := none
deriving DecidableEq, Repr

/-- `rinfo`: the sender's address and port as reported by the socket. -/
structure RInfo where
  address : String
  port : Int
deriving DecidableEq, Repr

/-- The key \x22`${bulb.ip}:${bulb.port}`\x22. -/
def bulbKey (ip : String) (port : Int) : String :=
  ip ++ ":" ++ toString port

/-- The object built by the message handler (lines 28–32):
`{ip: rinfo.address, port: rinfo.port, ...response.data}` — spread fields
override the two literals when present. -/
def mkDiscoveredBulb (rinfo : RInfo) (d : Option DiscData) : DiscoveredBulb :=
  match d with
  | none => { ip := rinfo.address, port := rinfo.port }
  | some d =>
    { ip := d.ip.getD rinfo.address
      port := d.port.getD rinfo.port
      name := d.name
      model := d.model
      firmwareVersion := d.firmwareVersion
      macAddress := d.macAddress }

/-- The `discoveredBulbs` map: key string to record. -/
abbrev DiscMap := List (String × DiscoveredBulb)

/-- The discovery socket's `message` handler (`setupDiscoverySocket`,
lines 24–41): a non-JSON payload (`none`) is ignored by the `catch`; a JSON
payload is stored only when `type == 'discovery_response'`, under the key
built from the assembled record's `ip`/`port`. -/
def discoveryOnMessage (m : DiscMap) (raw : Option DiscMsg) (rinfo : RInfo) : DiscMap :=
  match raw with
  | none => m
  | some msg =>
    if msg.type = "discovery_response" then
      let bulb := mkDiscoveredBulb rinfo msg.data
      mapSet m (bulbKey bulb.ip bulb.port) bulb
    else m

/-- One discovery round, `discoverBulbs` (lines 53–99): clear the set (the
`prior` map is discarded), broadcast, process the datagrams arriving inside
the window in order, and return the map's values when the timer fires. -/
def discoverBulbs (prior : DiscMap) (events : List (Option DiscMsg × RInfo)) :
    List DiscoveredBulb :=
  let cleared : DiscMap := []
  (events.foldl (fun m e => discoveryOnMessage m e.1 e.2) cleared).map Prod.snd

/-! ## Map lemmas -/

theorem mapLookup_mapRemove_self {β : Type} (m : List (String × β)) (key : String) :
    mapLookup (mapRemove m key) key = none := by
  induction m with
  | nil => rfl
  | cons e rest ih =>
    obtain ⟨k, v⟩ := e
    by_cases h : k = key
    · simpa [mapRemove, h] using ih
    · simpa [mapRemove, mapLookup, h] using ih

theorem mapLookup_mapRemove_ne {β : Type} (m : List (String × β)) (key k : String)
    (h : k ≠ key) : mapLookup (mapRemove m key) k = mapLookup m k := by
  induction m with
  | nil => rfl
  | cons e rest ih =>
    obtain ⟨k', v⟩ := e
    by_cases hk : k' = key
    · subst hk
      simp [mapRemove, mapLookup, Ne.symm h, ih]
    · by_cases hk2 : k' = k <;> simp [mapRemove, mapLookup, hk, hk2, h, ih]

theorem mapLookup_mapSet_self {β : Type} (m : List (String × β)) (key : String) (v : β) :
    mapLookup (mapSet m key v) key = some v := by
  simp [mapSet, mapLookup]

theorem mapLookup_mapSet_ne {β : Type} (m : List (String × β)) (key k : String) (v : β)
    (h : k ≠ key) : mapLookup (mapSet m key v) k = mapLookup m k := by
  simp [mapSet, mapLookup, Ne.symm h, mapLookup_mapRemove_ne m key k h]

theorem mapLookup_mapRemove_sub {β : Type} (m : List (String × β)) (key k : String) (v : β)
    (h : mapLookup (mapRemove m key) k = some v) : mapLookup m k = some v := by
  by_cases hk : k = key
  · subst hk
    rw [mapLookup_mapRemove_self] at h
    cases h
  · rwa [mapLookup_mapRemove_ne m key k hk] at h

theorem handleResponse_table_sub (resp : BulbResponse) (t : PendingTable)
    (cmdId : String) (tok : Nat)
    (h : mapLookup (handleResponse resp t).1 cmdId = some tok) :
    mapLookup t cmdId = some tok := by
  unfold handleResponse at h
  cases hr : resp.id with
  | none =>
    rw [hr] at h
    exact h
  | some respId =>
    rw [hr] at h
    cases hm : mapLookup t respId with
    | none =>
      simp [hm] at h
      exact h
    | some tok2 =>
      simp [hm] at h
      exact mapLookup_mapRemove_sub t respId cmdId tok h

theorem runCorr_ids_issued_aux (evs : List CorrEvent) (t : PendingTable)
    (start : List String)
    (hstart : ∀ cmdId tok, mapLookup t cmdId = some tok → cmdId ∈ start) :
    ∀ cmdId tok, mapLookup (evs.foldl corrStep t) cmdId = some tok →
      cmdId ∈ start ++ issuedIds evs := by
  induction evs generalizing t start with
  | nil =>
    intro cmdId tok h
    simpa [issuedIds] using hstart cmdId tok h
  | cons e rest ih =>
    intro cmdId tok h
    cases e with
    | send cmd randDigits tok0 =>
      have hstep : ∀ cmdId2 tok2,
          mapLookup (corrStep t (CorrEvent.send cmd randDigits tok0)) cmdId2 = some tok2 →
          cmdId2 ∈ start ++ [generateCommandId randDigits] := by
        intro cmdId2 tok2 h2
        by_cases he : cmdId2 = generateCommandId randDigits
        · exact List.mem_append.mpr (Or.inr (by simp [he]))
        · have h3 : mapLookup t cmdId2 = some tok2 := by
            have h4 := mapLookup_mapSet_ne t (generateCommandId randDigits) cmdId2 tok0 he
            simpa [corrStep, sendCommandReg, h4] using h2
          exact List.mem_append.mpr (Or.inl (hstart cmdId2 tok2 h3))
      have h5 := ih (corrStep t (CorrEvent.send cmd randDigits tok0))
        (start ++ [generateCommandId randDigits]) hstep cmdId tok h
      simpa [issuedIds, List.append_assoc] using h5
    | datagram raw =>
      have hstep : ∀ cmdId2 tok2,
          mapLookup (corrStep t (CorrEvent.datagram raw)) cmdId2 = some tok2 →
          cmdId2 ∈ start := by
        intro cmdId2 tok2 h2
        cases raw with
        | none => exact hstart cmdId2 tok2 h2
        | some resp =>
          exact hstart cmdId2 tok2 (handleResponse_table_sub resp t cmdId2 tok2 h2)
      have h5 := ih (corrStep t (CorrEvent.datagram raw)) start hstep cmdId tok h
      simpa [issuedIds] using h5
    | timerFire cmdId0 tok0 =>
      have hstep : ∀ cmdId2 tok2,
          mapLookup (corrStep t (CorrEvent.timerFire cmdId0 tok0)) cmdId2 = some tok2 →
          cmdId2 ∈ start := by
        intro cmdId2 tok2 h2
        exact hstart cmdId2 tok2 (mapLookup_mapRemove_sub t cmdId0 cmdId2 tok2 h2)
      have h5 := ih (corrStep t (CorrEvent.timerFire cmdId0 tok0)) start hstep cmdId tok h
      simpa [issuedIds] using h5
    | close =>
      have hstep : ∀ cmdId2 tok2,
          mapLookup (corrStep t CorrEvent.close) cmdId2 = some tok2 →
          cmdId2 ∈ start := by
        intro cmdId2 tok2 h2
        cases h2
      have h5 := ih (corrStep t CorrEvent.close) start hstep cmdId tok h
      simpa [issuedIds] using h5

/-! ## Claim theorems -/

/-- C1: a matching datagram with `success=true` resolves the waiting caller
with that response, with `success=false` rejects it with the carried error or
`'Unknown error'`; an elapsed deadline rejects it with the timeout error; in
each case the entry leaves the in-flight table, and any further datagram
carrying the same identifier neither resolves nor rejects anything. -/
theorem C1_exactly_once_resolution (resp : BulbResponse) (t : PendingTable)
    (cmdId : String) (tok : Nat)
    (hid : resp.id = some cmdId) (hmem : mapLookup t cmdId = some tok) :
    ((handleResponse resp t).2.1 =
        some (tok, if resp.success then Settle.resolve resp
                   else Settle.reject (resp.error.getD "Unknown error"))) ∧
    mapLookup (handleResponse resp t).1 cmdId = none ∧
    (timeoutFire cmdId tok t).2 = (tok, Settle.reject "Command timeout") ∧
    mapLookup (timeoutFire cmdId tok t).1 cmdId = none ∧
    (∀ resp2 t2, resp2.id = some cmdId → mapLookup t2 cmdId = none →
      handleResponse resp2 t2 = (t2, none, resp2.data.isSome)) := by
  refine ⟨?_, ?_, rfl, mapLookup_mapRemove_self t cmdId, ?_⟩
  · cases hs : resp.success <;> simp [handleResponse, hid, hmem, hs]
  · simp [handleResponse, hid, hmem, mapLookup_mapRemove_self]
  · intro resp2 t2 h1 h2
    simp [handleResponse, h1, h2]

theorem C1_witness :
    (({ success := true, id := some "q1" } : BulbResponse).id = some "q1") ∧
    mapLookup [("q1", 7)] "q1" = some 7 ∧
    (handleResponse { success := true, id := some "q1" } [("q1", 7)]).2.1 =
      some (7, Settle.resolve { success := true, id := some "q1" }) ∧
    mapLookup (handleResponse { success := true, id := some "q1" } [("q1", 7)]).1 "q1" = none := by
  have h := C1_exactly_once_resolution { success := true, id := some "q1" }
    [("q1", 7)] "q1" 7 rfl (by decide)
  exact ⟨rfl, by decide, h.1, h.2.1⟩

/-- C2 counterexample: `generateCommandId` never consults the in-flight
table, so a draw of the same token twice (here the digit stream `abc` while
`"abc"` is still in flight for caller `0`) registers over the existing
PendingRequest: caller `0`'s entry is overwritten by caller `1`'s, refuting
both freshness and "never overwrites". -/
theorem C2_counterexample :
    generateCommandId ['a', 'b', 'c'] = "abc" ∧
    mapLookup [("abc", 0)] "abc" = some 0 ∧
    (sendCommandReg { command := "ping" } ['a', 'b', 'c'] 1 [("abc", 0)]).2.id = "abc" ∧
    (sendCommandReg { command := "ping" } ['a', 'b', 'c'] 1 [("abc", 0)]).1 = [("abc", 1)] ∧
    mapLookup (sendCommandReg { command := "ping" } ['a', 'b', 'c'] 1 [("abc", 0)]).1 "abc" =
      some 1 := by
  decide

/-- C2 amended: the identifier is drawn at random without a freshness check;
whenever the drawn token is not currently in flight, registration binds it to
the new caller and leaves every existing entry intact (no overwrite), while
on a collision the existing PendingRequest is overwritten; independently,
every identifier present in the in-flight table of any event trace was
generated by a `send` of that correlator instance. -/
theorem C2_register_fresh (cmd : BulbCommand) (randDigits : List Char) (tok : Nat)
    (t : PendingTable) (evs : List CorrEvent)
    (hfresh : mapLookup t (generateCommandId randDigits) = none) :
    (sendCommandReg cmd randDigits tok t).2.id = generateCommandId randDigits ∧
    mapLookup (sendCommandReg cmd randDigits tok t).1 (generateCommandId randDigits) =
      some tok ∧
    (∀ other, other ≠ generateCommandId randDigits →
      mapLookup (sendCommandReg cmd randDigits tok t).1 other = mapLookup t other) ∧
    (∀ other tok2, mapLookup t other = some tok2 →
      mapLookup (sendCommandReg cmd randDigits tok t).1 other = some tok2) ∧
    (∀ cmdId tok2, mapLookup (runCorr evs) cmdId = some tok2 → cmdId ∈ issuedIds evs) := by
  refine ⟨rfl, mapLookup_mapSet_self t (generateCommandId randDigits) tok, ?_, ?_, ?_⟩
  · intro other h
    exact mapLookup_mapSet_ne t (generateCommandId randDigits) other tok h
  · intro other tok2 h
    have hne : other ≠ generateCommandId randDigits := by
      intro he
      rw [he, hfresh] at h
      cases h
    show mapLookup (mapSet t (generateCommandId randDigits) tok) other = some tok2
    rw [mapLookup_mapSet_ne t (generateCommandId randDigits) other tok hne]
    exact h
  · intro cmdId tok2 h
    have h2 := runCorr_ids_issued_aux evs [] [] (fun _ _ hh => by cases hh) cmdId tok2 h
    simpa using h2

theorem C2_witness :
    mapLookup [("zz", 5)] (generateCommandId ['a', 'b', 'c']) = none ∧
    mapLookup (sendCommandReg { command := "ping" } ['a', 'b', 'c'] 1 [("zz", 5)]).1 "abc" =
      some 1 ∧
    mapLookup (sendCommandReg { command := "ping" } ['a', 'b', 'c'] 1 [("zz", 5)]).1 "zz" =
      some 5 ∧
    mapLookup (runCorr [CorrEvent.send { command := "ping" } ['a', 'b'] 0]) "ab" = some 0 ∧
    "ab" ∈ issuedIds [CorrEvent.send { command := "ping" } ['a', 'b'] 0] := by
  have h := C2_register_fresh { command := "ping" } ['a', 'b', 'c'] 1 [("zz", 5)]
    [CorrEvent.send { command := "ping" } ['a', 'b'] 0] (by decide)
  exact ⟨by decide, h.2.1, h.2.2.2.1 "zz" 5 (by decide), by decide,
    h.2.2.2.2 "ab" 0 (by decide)⟩

/-- C4: an out-of-range brightness or RGB channel throws the validation
error before any I/O: the in-flight table is untouched and no datagram is
written. -/
theorem C4_validation_before_io (brightness r g b : Int) (randDigits : List Char)
    (tok : Nat) (t : PendingTable)
    (hb : brightness < 0 ∨ brightness > 100)
    (hc : r < 0 ∨ r > 255 ∨ g < 0 ∨ g > 255 ∨ b < 0 ∨ b > 255) :
    setBrightnessRun brightness randDigits tok t =
      { error := some "Brightness must be between 0 and 100", table := t, sent := [] } ∧
    setColorRun r g b randDigits tok t =
      { error := some "RGB values must be between 0 and 255", table := t, sent := [] } := by
  constructor
  · unfold setBrightnessRun
    rw [if_pos hb]
  · unfold setColorRun
    rw [if_pos hc]

theorem C4_witness :
    ((101 : Int) < 0 ∨ (101 : Int) > 100) ∧
    setBrightnessRun 101 ['a'] 0 [] =
      { error := some "Brightness must be between 0 and 100", table := [], sent := [] } ∧
    setColorRun (-1) 0 0 ['a'] 0 [] =
      { error := some "RGB values must be between 0 and 255", table := [], sent := [] } := by
  have h := C4_validation_before_io 101 (-1) 0 0 ['a'] 0 []
    (by decide) (by decide)
  exact ⟨by decide, h.1, h.2⟩

/-- C5: `getStatus` and `ping` absorb failures: a failed round trip makes
`getStatus` return the cached status with `connected` forced to `false`
(the cache itself untouched) instead of raising, and makes `ping` return
`false`; a successful round trip makes `ping` return `true`. -/
theorem C5_absorb_failures (st : BulbStatus) (e : SBError) (resp : BulbResponse) :
    getStatus st (Except.error e) = (st, { st with connected := false }) ∧
    (getStatus st (Except.error e)).2.connected = false ∧
    ping (Except.error e) = false ∧
    ping (Except.ok resp) = true :=
  ⟨rfl, rfl, rfl, rfl⟩

/-- C7: closing with entries in flight rejects every waiting caller with
`'Connection closed'` and clears the in-flight table. -/
theorem C7_close_fails_all (t : PendingTable) :
    (closeBulb t).2 = [] ∧
    (closeBulb t).1.length = t.length ∧
    (∀ cmdId tok, (cmdId, tok) ∈ t →
      (tok, Settle.reject "Connection closed") ∈ (closeBulb t).1) := by
  refine ⟨rfl, by simp [closeBulb], ?_⟩
  intro cmdId tok h
  exact List.mem_map.mpr ⟨(cmdId, tok), h, rfl⟩

theorem C7_witness :
    ("a", 1) ∈ ([("a", 1), ("b", 2)] : PendingTable) ∧
    (1, Settle.reject "Connection closed") ∈ (closeBulb [("a", 1), ("b", 2)]).1 ∧
    (2, Settle.reject "Connection closed") ∈ (closeBulb [("a", 1), ("b", 2)]).1 ∧
    (closeBulb [("a", 1), ("b", 2)]).2 = [] := by
  have h := C7_close_fails_all [("a", 1), ("b", 2)]
  exact ⟨by decide, h.2.2 "a" 1 (by decide), h.2.2 "b" 2 (by decide), h.1⟩

/-- C9: a datagram that fails to parse, or parses to a response whose `id`
is absent or matches no in-flight entry, is dropped: the in-flight table is
unchanged and no caller is resolved or rejected. -/
theorem C9_malformed_dropped (t : PendingTable) (resp : BulbResponse)
    (h : ∀ cmdId, resp.id = some cmdId → mapLookup t cmdId = none) :
    processDatagram t none = (t, none, false) ∧
    (processDatagram t (some resp)).1 = t ∧
    (processDatagram t (some resp)).2.1 = none := by
  refine ⟨rfl, ?_, ?_⟩ <;>
  · cases hr : resp.id with
    | none => simp [processDatagram, handleResponse, hr]
    | some cmdId => simp [processDatagram, handleResponse, hr, h cmdId hr]

theorem C9_witness :
    (processDatagram [("a", 1)] (some { success := true, id := some "zz" })).1 = [("a", 1)] ∧
    (processDatagram [("a", 1)] (some { success := true, id := some "zz" })).2.1 = none ∧
    processDatagram [("a", 1)] none = ([("a", 1)], none, false) := by
  have h := C9_malformed_dropped [("a", 1)] { success := true, id := some "zz" }
    (fun cmdId hc => by
      obtain rfl : "zz" = cmdId := Option.some.inj hc
      decide)
  exact ⟨h.2.1, h.2.2, h.1⟩

/-- C10: the cached status of a freshly constructed proxy, as returned by
`getLastStatus`, is exactly power off, brightness 0, white color, no
temperature, not connected. -/
theorem C10_initial_status :
    getLastStatus initialStatus =
      { power := false, brightness := 0, color := { r := 255, g := 255, b := 255 },
        temperature := none, connected := false } := rfl

/-- C6: a successful exchange carrying status data merges the returned
fields into the cache shallowly — an explicit field overwrites, an absent
field keeps its prior value — and forces `connected := true`; a failed
status query leaves the caller observing `connected = false`. -/
theorem C6_status_merge (st : BulbStatus) (d : StatusData) (resp : BulbResponse)
    (e : SBError) (hd : resp.data = some d) :
    (getStatus st (Except.ok resp)).1 = updateStatus st d ∧
    (getStatus st (Except.ok resp)).2 = updateStatus st d ∧
    (updateStatus st d).connected = true ∧
    (∀ p, d.power = some p → (updateStatus st d).power = p) ∧
    (d.power = none → (updateStatus st d).power = st.power) ∧
    (∀ x, d.brightness = some x → (updateStatus st d).brightness = x) ∧
    (d.brightness = none → (updateStatus st d).brightness = st.brightness) ∧
    (∀ c, d.color = some c → (updateStatus st d).color = c) ∧
    (d.color = none → (updateStatus st d).color = st.color) ∧
    (∀ x, d.temperature = some x → (updateStatus st d).temperature = some x) ∧
    (d.temperature = none → (updateStatus st d).temperature = st.temperature) ∧
    (getStatus st (Except.error e)).2 = { st with connected := false } ∧
    (getStatus st (Except.error e)).2.connected = false := by
  refine ⟨by simp [getStatus, hd], by simp [getStatus, hd], rfl,
    ?_, ?_, ?_, ?_, ?_, ?_, ?_, ?_, rfl, rfl⟩ <;>
  · intro hx
    first
    | (intro hy; simp [updateStatus, hy])
    | simp [updateStatus, hx]

theorem C6_witness :
    (({ success := true, data := some { brightness := some 40 } } : BulbResponse).data =
      some { brightness := some 40 }) ∧
    (getStatus initialStatus
        (Except.ok { success := true, data := some { brightness := some 40 } })).1 =
      updateStatus initialStatus { brightness := some 40 } ∧
    (updateStatus initialStatus { brightness := some 40 }).connected = true ∧
    (updateStatus initialStatus { brightness := some 40 }).brightness = 40 ∧
    (updateStatus initialStatus { brightness := some 40 }).power = initialStatus.power ∧
    (getStatus initialStatus (Except.error (SBError.err "Command timeout"))).2.connected =
      false := by
  have h := C6_status_merge initialStatus { brightness := some 40 }
    { success := true, data := some { brightness := some 40 } }
    (SBError.err "Command timeout") rfl
  exact ⟨rfl, h.1, h.2.2.1, h.2.2.2.2.2.1 40 rfl, h.2.2.2.2.1 rfl, h.2.2.2.2.2.2.2.2.2.2.2.2⟩

/-! ## Hex-digit arithmetic for C8 -/

theorem hexVal_bounds (c : Char) (h : isHexChar c = true) :
    0 ≤ hexVal c ∧ hexVal c ≤ 15 := by
  have h2 : (('0' ≤ c ∧ c ≤ '9') ∨ ('a' ≤ c ∧ c ≤ 'f')) ∨ ('A' ≤ c ∧ c ≤ 'F') := by
    simpa [isHexChar, Bool.or_eq_true, Bool.and_eq_true, decide_eq_true_iff] using h
  have d0 : ('0').toNat = 48 := rfl
  have d9 : ('9').toNat = 57 := rfl
  have da : ('a').toNat = 97 := rfl
  have df : ('f').toNat = 102 := rfl
  have dA : ('A').toNat = 65 := rfl
  have dF : ('F').toNat = 70 := rfl
  unfold hexVal
  rcases h2 with (⟨h1, h2⟩ | ⟨h1, h2⟩) | ⟨h1, h2⟩
  · have e1 : ('0').toNat ≤ c.toNat := h1
    have e2 : c.toNat ≤ ('9').toNat := h2
    rw [if_pos ⟨h1, h2⟩]
    omega
  · have e1 : ('a').toNat ≤ c.toNat := h1
    have e2 : c.toNat ≤ ('f').toNat := h2
    have hno : ¬('0' ≤ c ∧ c ≤ '9') := by
      rintro ⟨h3, h4⟩
      have e4 : c.toNat ≤ ('9').toNat := h4
      omega
    rw [if_neg hno, if_pos ⟨h1, h2⟩]
    omega
  · have e1 : ('A').toNat ≤ c.toNat := h1
    have e2 : c.toNat ≤ ('F').toNat := h2
    have hno : ¬('0' ≤ c ∧ c ≤ '9') := by
      rintro ⟨h3, h4⟩
      have e3 : ('0').toNat ≤ c.toNat := h3
      have e4 : c.toNat ≤ ('9').toNat := h4
      omega
    have hno2 : ¬('a' ≤ c ∧ c ≤ 'f') := by
      rintro ⟨h3, h4⟩
      have e3 : ('a').toNat ≤ c.toNat := h3
      omega
    rw [if_neg hno, if_neg hno2, if_pos ⟨h1, h2⟩]
    omega

theorem pairVal_bounds (hi lo : Char) (h1 : isHexChar hi = true)
    (h2 : isHexChar lo = true) : 0 ≤ pairVal hi lo ∧ pairVal hi lo ≤ 255 := by
  have b1 := hexVal_bounds hi h1
  have b2 := hexVal_bounds lo h2
  unfold pairVal
  omega

/-- The source regex rejects every string outside the spec's pattern. -/
theorem hexExec_none_or_pattern (s : String) :
    hexExec s = none ∨ specHexPattern s = true := by
  unfold hexExec
  split
  next c1 c2 c3 c4 c5 c6 heq =>
    by_cases hall : (isHexChar c1 && isHexChar c2 && isHexChar c3 &&
        isHexChar c4 && isHexChar c5 && isHexChar c6) = true
    · right
      simp only [specHexPattern, heq]
      simp only [Bool.and_eq_true] at hall
      simp [hall.1.1.1.1.1, hall.1.1.1.1.2, hall.1.1.1.2, hall.1.1.2, hall.1.2, hall.2]
    · left
      rw [if_neg hall]
  next => left; rfl

/-- C8: a string matching the pattern (optional `#`, six case-insensitive
hex digits) is decoded group-wise base-16 and handed to `setColor`, which —
the decoded channels being in range — issues the `set_color` command; any
non-matching string throws the format error with no datagram sent and the
table untouched. -/
theorem C8_hex_decoding (hex : String) (randDigits : List Char) (tok : Nat)
    (t : PendingTable) :
    (∀ c1 c2 c3 c4 c5 c6,
      stripHash hex.data = [c1, c2, c3, c4, c5, c6] →
      (isHexChar c1 && isHexChar c2 && isHexChar c3 &&
       isHexChar c4 && isHexChar c5 && isHexChar c6) = true →
      setColorHexRun hex randDigits tok t =
        setColorRun (pairVal c1 c2) (pairVal c3 c4) (pairVal c5 c6) randDigits tok t ∧
      setColorHexRun hex randDigits tok t =
        { error := none
          table := mapSet t (generateCommandId randDigits) tok
          sent := [{ command := "set_color"
                     params := some (Params.color
                       { r := pairVal c1 c2, g := pairVal c3 c4, b := pairVal c5 c6 })
                     id := generateCommandId randDigits }] }) ∧
    (specHexPattern hex = false →
      setColorHexRun hex randDigits tok t =
        { error := some "Invalid hex color format", table := t, sent := [] }) := by
  constructor
  · intro c1 c2 c3 c4 c5 c6 hsh hall
    have hx : hexExec hex = some (c1, c2, c3, c4, c5, c6) := by
      unfold hexExec
      rw [hsh]
      simp [hall]
    have heq1 : setColorHexRun hex randDigits tok t =
        setColorRun (pairVal c1 c2) (pairVal c3 c4) (pairVal c5 c6) randDigits tok t := by
      unfold setColorHexRun
      rw [hx]
    refine ⟨heq1, ?_⟩
    rw [heq1]
    simp only [Bool.and_eq_true] at hall
    have b12 := pairVal_bounds c1 c2 hall.1.1.1.1.1 hall.1.1.1.1.2
    have b34 := pairVal_bounds c3 c4 hall.1.1.1.2 hall.1.1.2
    have b56 := pairVal_bounds c5 c6 hall.1.2 hall.2
    unfold setColorRun
    rw [if_neg (by rintro (h | h | h | h | h | h) <;> omega)]
    rfl
  · intro hp
    rcases hexExec_none_or_pattern hex with hnone | htrue
    · unfold setColorHexRun
      rw [hnone]
    · rw [htrue] at hp
      cases hp

theorem C8_witness :
    stripHash ("#0aFf09").data = ['0', 'a', 'F', 'f', '0', '9'] ∧
    setColorHexRun "#0aFf09" ['x'] 3 [] =
      { error := none
        table := [("x", 3)]
        sent := [{ command := "set_color"
                   params := some (Params.color { r := 10, g := 255, b := 9 })
                   id := "x" }] } ∧
    specHexPattern "zz" = false ∧
    setColorHexRun "zz" ['x'] 3 [] =
      { error := some "Invalid hex color format", table := [], sent := [] } := by
  have h1 := (C8_hex_decoding "#0aFf09" ['x'] 3 []).1 '0' 'a' 'F' 'f' '0' '9'
    (by decide) (by decide)
  have h2 := (C8_hex_decoding "zz" ['x'] 3 []).2 (by decide)
  refine ⟨by decide, ?_, by decide, h2⟩
  rw [h1.2]
  decide

/-- C3 counterexample: a `discovery_response` whose `data` object itself
contains an `ip` field is keyed by that field, not by the sender's address:
the reply from sender `10.0.0.1:4000` carrying `data.ip = "9.9.9.9"` is
stored under `"9.9.9.9:4000"` and is absent under the sender's key. -/
theorem C3_counterexample :
    discoveryOnMessage []
        (some { type := "discovery_response", data := some { ip := some "9.9.9.9" } })
        { address := "10.0.0.1", port := 4000 } =
      [("9.9.9.9:4000", { ip := "9.9.9.9", port := 4000 })] ∧
    mapLookup (discoveryOnMessage []
        (some { type := "discovery_response", data := some { ip := some "9.9.9.9" } })
        { address := "10.0.0.1", port := 4000 }) (bulbKey "10.0.0.1" 4000) = none := by
  decide

/-- C3 amended: a round folds over a cleared set, so the prior set never
leaks in; a `discovery_response` whose `data` does not carry `ip`/`port`
overrides is stored under the sender's `address:port` key, replacing any
prior entry under that key and touching no other key (last reply wins, no
merge); two replies from senders with distinct keys yield, in either arrival
order, exactly the two corresponding records; the fold's final map is what
the round returns. -/
theorem C3_discovery_round (prior m : DiscMap) (evs : List (Option DiscMsg × RInfo))
    (msg : DiscMsg) (r r1 r2 : RInfo)
    (hty : msg.type = "discovery_response")
    (hip : msg.data.bind DiscData.ip = none)
    (hport : msg.data.bind DiscData.port = none)
    (hkey : bulbKey r1.address r1.port ≠ bulbKey r2.address r2.port) :
    discoverBulbs prior evs = discoverBulbs [] evs ∧
    mapLookup (discoveryOnMessage m (some msg) r) (bulbKey r.address r.port) =
      some (mkDiscoveredBulb r msg.data) ∧
    (∀ k, k ≠ bulbKey r.address r.port →
      mapLookup (discoveryOnMessage m (some msg) r) k = mapLookup m k) ∧
    discoverBulbs prior
        [(some { type := "discovery_response" }, r1),
         (some { type := "discovery_response" }, r2)] =
      [mkDiscoveredBulb r2 none, mkDiscoveredBulb r1 none] ∧
    discoverBulbs prior
        [(some { type := "discovery_response" }, r2),
         (some { type := "discovery_response" }, r1)] =
      [mkDiscoveredBulb r1 none, mkDiscoveredBulb r2 none] := by
  have hb : (mkDiscoveredBulb r msg.data).ip = r.address ∧
      (mkDiscoveredBulb r msg.data).port = r.port := by
    cases hd : msg.data with
    | none => simp [mkDiscoveredBulb]
    | some d =>
      have h1 : d.ip = none := by simpa [hd] using hip
      have h2 : d.port = none := by simpa [hd] using hport
      simp [mkDiscoveredBulb, h1, h2]
  refine ⟨rfl, ?_, ?_, ?_, ?_⟩
  · simp only [discoveryOnMessage, hty, if_pos, hb.1, hb.2]
    exact mapLookup_mapSet_self m (bulbKey r.address r.port) (mkDiscoveredBulb r msg.data)
  · intro k hk
    simp only [discoveryOnMessage, hty, if_pos, hb.1, hb.2]
    exact mapLookup_mapSet_ne m (bulbKey r.address r.port) k (mkDiscoveredBulb r msg.data) hk
  · simp [discoverBulbs, discoveryOnMessage, mkDiscoveredBulb, mapSet, mapRemove, hkey]
  · simp [discoverBulbs, discoveryOnMessage, mkDiscoveredBulb, mapSet, mapRemove,
      Ne.symm hkey]

theorem C3_witness :
    (({ type := "discovery_response", data := some { name := some "bulb" } } : DiscMsg).type =
      "discovery_response") ∧
    bulbKey "192.168.1.10" 4000 ≠ bulbKey "192.168.1.11" 4000 ∧
    mapLookup (discoveryOnMessage []
        (some { type := "discovery_response", data := some { name := some "bulb" } })
        { address := "192.168.1.10", port := 4000 }) (bulbKey "192.168.1.10" 4000) =
      some { ip := "192.168.1.10", port := 4000, name := some "bulb" } ∧
    discoverBulbs [("old:1", { ip := "old", port := 1 })]
        [(some { type := "discovery_response" }, { address := "192.168.1.10", port := 4000 }),
         (some { type := "discovery_response" }, { address := "192.168.1.11", port := 4000 })] =
      [{ ip := "192.168.1.11", port := 4000 }, { ip := "192.168.1.10", port := 4000 }] := by
  have h := C3_discovery_round [("old:1", { ip := "old", port := 1 })] []
    [] { type := "discovery_response", data := some { name := some "bulb" } }
    { address := "192.168.1.10", port := 4000 }
    { address := "192.168.1.10", port := 4000 }
    { address := "192.168.1.11", port := 4000 }
    rfl rfl rfl (by decide)
  exact ⟨rfl, by decide, h.2.1, h.2.2.2.1⟩
